import Mathlib

/-!
Verification development for the `python-whisper-transcriber` pipeline.

This file gives a shallow embedding of the queue (`src/queue.py`), the
sender's per-item dispatch (`src/sender.py`) and the VAD segmenter
(`src/vad.py`), and proves or refutes the specified properties about them.

Conventions of the embedding:
* Timestamps in the Python code are ISO-8601 strings compared by SQLite in
  lexicographic order, which agrees with temporal order; they are modelled
  as rationals (`ℚ`).
* The SQLite table `transcript_queue` is modelled as a `List QueueItem` in
  insertion (rowid) order.
* `datetime.now()` readings are passed in explicitly as a `now` argument.
* Fallible operations return their Python truthy result (`Bool`) paired
  with the updated table.
-/

namespace Wt

/-- Status column of a queue item; `queue.py` stores exactly these four
strings. -/
inductive Status
  | pending
  | sending
  | sent
  | failed_permanent
deriving DecidableEq, Repr

/-- One row of the `transcript_queue` table (`queue.py`, `_init_database`).
The three payload text columns that the queue never inspects
(`timestamp`, `file_path`, `transcript_timestamp`) are collapsed into
`text`. -/
structure QueueItem where
  id : Nat
  text : String
  status : Status
  attempts : Nat
  last_attempt : Option ℚ
  last_error : Option String
  next_retry : Option ℚ
  created_at : ℚ
  sent_at : Option ℚ
  response : Option String
deriving DecidableEq, Repr

/-- Retry configuration read in `TranscriptQueue.__init__`
(`max_retries` default 5, `base_retry_delay` default 1 s,
`max_retry_delay` default 300 s). -/
structure QueueConfig where
  max_retries : Nat
  base_retry_delay : ℚ
  max_retry_delay : ℚ
deriving Repr

/-- Models `TranscriptQueue._init_database`: it only issues
`CREATE TABLE IF NOT EXISTS` and `CREATE INDEX IF NOT EXISTS`, which never
modify existing rows, so on a pre-existing database it is the identity on
the table contents. -/
def init_database (st : List QueueItem) : List QueueItem := st

/-- Models `TranscriptQueue.add_transcript`: INSERT of a fresh row with
status `pending` and `attempts = 0`.  `id` is the PRIMARY KEY, so inserting
a duplicate id raises and leaves the table unchanged (the Python code
re-raises the exception). -/
def add_transcript (id : Nat) (text : String) (now : ℚ) (st : List QueueItem) :
    Option QueueItem × List QueueItem :=
  if st.any (fun r => r.id == id) then (none, st)
  else
    let item : QueueItem :=
      { id := id, text := text, status := Status.pending, attempts := 0,
        last_attempt := none, last_error := none, next_retry := none,
        created_at := now, sent_at := none, response := none }
    (some item, st ++ [item])

/-- Comparison used by `ORDER BY created_at ASC`. -/
def createdLe (a b : QueueItem) : Prop := a.created_at ≤ b.created_at

instance : DecidableRel createdLe := fun a b =>
  inferInstanceAs (Decidable (a.created_at ≤ b.created_at))

instance : IsTotal QueueItem createdLe := ⟨fun a b => le_total a.created_at b.created_at⟩

instance : IsTrans QueueItem createdLe := ⟨fun _ _ _ h h' => le_trans h h'⟩

/-- Models `ORDER BY created_at ASC` (stable, as SQLite scans in rowid
order). -/
def sortByCreated (st : List QueueItem) : List QueueItem :=
  List.insertionSort createdLe st

/-- Models `TranscriptQueue.get_next_pending`: first row of
`SELECT * WHERE status = 'pending' ORDER BY created_at ASC LIMIT 1`.
Note the query filters on `status` only; it does not look at
`next_retry`. -/
def get_next_pending (st : List QueueItem) : Option QueueItem :=
  (sortByCreated (st.filter (fun r => r.status == Status.pending))).head?

/-- Models `TranscriptQueue.get_all_pending`. -/
def get_all_pending (st : List QueueItem) : List QueueItem :=
  sortByCreated (st.filter (fun r => r.status == Status.pending))

/-- Models `TranscriptQueue.get_retryable_items`: pending rows with
`attempts > 0`, `attempts < max_retries` and
`next_retry IS NULL OR next_retry <= now`, ordered by `created_at`. -/
def get_retryable_items (cfg : QueueConfig) (now : ℚ) (st : List QueueItem) :
    List QueueItem :=
  sortByCreated (st.filter (fun r =>
    r.status == Status.pending && decide (0 < r.attempts) &&
      decide (r.attempts < cfg.max_retries) &&
      (match r.next_retry with
       | none => true
       | some t => decide (t ≤ now))))

/-- Models `TranscriptQueue.mark_as_sending`: the UPDATE filters on `id`
only (there is no `status = 'pending'` guard); `rowcount > 0` iff a row
with the id exists. -/
def mark_as_sending (id : Nat) (now : ℚ) (st : List QueueItem) :
    Bool × List QueueItem :=
  if st.any (fun r => r.id == id) then
    (true, st.map (fun r =>
      if r.id = id then
        { r with
          status := Status.sending
          attempts := r.attempts + 1
          last_attempt := some now }
      else r))
  else (false, st)

/-- Models `TranscriptQueue.mark_as_sent`: again the UPDATE filters on
`id` only. -/
def mark_as_sent (id : Nat) (now : ℚ) (resp : Option String)
    (st : List QueueItem) : Bool × List QueueItem :=
  if st.any (fun r => r.id == id) then
    (true, st.map (fun r =>
      if r.id = id then
        { r with status := Status.sent, sent_at := some now, response := resp }
      else r))
  else (false, st)

/-- Backoff delay computed in `TranscriptQueue.mark_as_failed`:
`min(base_retry_delay * (2 ** (attempts - 1)), max_retry_delay)`.
Python evaluates `2 ** (attempts - 1)` over the integers (giving the exact
float `0.5` when `attempts = 0`), which the integer power of `ℚ` models
exactly. -/
def backoffDelay (cfg : QueueConfig) (attempts : Nat) : ℚ :=
  min (cfg.base_retry_delay * (2 : ℚ) ^ ((attempts : ℤ) - 1)) cfg.max_retry_delay

/-- Models `TranscriptQueue.mark_as_failed`: reads `attempts` from the row
with the given id; when `attempts >= max_retries` sets
`status = 'failed_permanent'` and `last_error` (leaving `next_retry`
unchanged), otherwise sets `status = 'pending'`, `last_error` and
`next_retry = now + delay`. -/
def mark_as_failed (cfg : QueueConfig) (id : Nat) (now : ℚ) (err : Option String)
    (st : List QueueItem) : Bool × List QueueItem :=
  match st.find? (fun r => r.id == id) with
  | none => (false, st)
  | some row =>
    if cfg.max_retries ≤ row.attempts then
      (true, st.map (fun r =>
        if r.id = id then
          { r with status := Status.failed_permanent, last_error := err }
        else r))
    else
      (true, st.map (fun r =>
        if r.id = id then
          { r with
            status := Status.pending
            last_error := err
            next_retry := some (now + backoffDelay cfg row.attempts) }
        else r))

/-- Per-status counts returned by `TranscriptQueue.get_stats`. -/
structure QueueStats where
  pending : Nat
  sending : Nat
  sent : Nat
  failed_permanent : Nat
  total : Nat
deriving DecidableEq, Repr

/-- Models `TranscriptQueue.get_stats`: `GROUP BY status` counts, with
`total` the sum over all statuses present. -/
def get_stats (st : List QueueItem) : QueueStats :=
  let count := fun (s : Status) => (st.filter (fun r => r.status == s)).length
  { pending := count Status.pending,
    sending := count Status.sending,
    sent := count Status.sent,
    failed_permanent := count Status.failed_permanent,
    total := count Status.pending + count Status.sending + count Status.sent +
      count Status.failed_permanent }

/-- Models `TranscriptQueue.reset_attempts`. -/
def reset_attempts (id : Nat) (st : List QueueItem) : Bool × List QueueItem :=
  if st.any (fun r => r.id == id) then
    (true, st.map (fun r =>
      if r.id = id then
        { r with
          attempts := 0
          status := Status.pending
          last_error := none
          next_retry := none }
      else r))
  else (false, st)

/-- Models `TranscriptQueue.cleanup_old_items`: deletes rows with
`status = 'sent' AND sent_at < cutoff` (a NULL `sent_at` never compares
below the cutoff) and returns the deleted count. -/
def cleanup_old_items (cutoff : ℚ) (st : List QueueItem) :
    Nat × List QueueItem :=
  let keep := st.filter (fun r =>
    !(r.status == Status.sent &&
      (match r.sent_at with
       | some t => decide (t < cutoff)
       | none => false)))
  (st.length - keep.length, keep)

/-- Models `TranscriptQueue.get_item`. -/
def get_item (id : Nat) (st : List QueueItem) : Option QueueItem :=
  st.find? (fun r => r.id == id)

/-- Read access to the store that may raise (`sqlite3` errors are caught by
the enclosing `try`/`except` blocks in `queue.py`). -/
def get_next_pending_db (db : Except String (List QueueItem)) : Option QueueItem :=
  match db with
  | Except.error _ => none
  | Except.ok st => get_next_pending st

/-- The `except` branch of `get_retryable_items` returns `[]`. -/
def get_retryable_items_db (cfg : QueueConfig) (now : ℚ)
    (db : Except String (List QueueItem)) : List QueueItem :=
  match db with
  | Except.error _ => []
  | Except.ok st => get_retryable_items cfg now st

/-- The `except` branch of `get_stats` returns all-zero counts. -/
def get_stats_db (db : Except String (List QueueItem)) : QueueStats :=
  match db with
  | Except.error _ =>
    { pending := 0, sending := 0, sent := 0, failed_permanent := 0, total := 0 }
  | Except.ok st => get_stats st

/-!
Sender (`src/sender.py`).  `TranscriptSender._send_transcript` marks the
item `sending`, performs the POST, and classifies the outcome into the
`except` branches of the method.
-/

/-- Outcome of the POST in `_send_transcript`, one constructor per handler
branch (`raise_for_status` success, `HTTPError` with a response status,
`ConnectionError`, `Timeout`, and the catch-all `Exception`). -/
inductive SendOutcome
  | success (resp : String)
  | httpError (status : Nat)
  | connectionError
  | timeout
  | otherError
deriving DecidableEq, Repr

/-- The 4xx branch of `_send_transcript`:
`for _ in range(self.queue.max_retries): self.queue.mark_as_failed(...)`.
All loop iterations pass the same error payload; the clock reading of each
iteration is collapsed into one `now` (the iterations are
state-idempotent, so only the last write is observable). -/
def iterateMarkFailed (cfg : QueueConfig) (id : Nat) (now : ℚ) (err : Option String)
    (st : List QueueItem) : Nat → List QueueItem
  | 0 => st
  | n + 1 => iterateMarkFailed cfg id now err (mark_as_failed cfg id now err st).2 n

/-- Models `TranscriptSender._send_transcript` acting on the queue table:
mark the item `sending` (returning unchanged if that reports no matching
row), then dispatch on the response.  An `HTTPError` with
`400 <= status < 500` runs `mark_as_failed` in a loop `max_retries` times
("Para erros 4xx ... Marcar como falha permanente"); every other failure
calls `mark_as_failed` once; success calls `mark_as_sent`. -/
def send_transcript (cfg : QueueConfig) (id : Nat) (now : ℚ)
    (outcome : SendOutcome) (st : List QueueItem) : List QueueItem :=
  let ms := mark_as_sending id now st
  if ms.1 then
    match outcome with
    | SendOutcome.success resp => (mark_as_sent id now (some resp) ms.2).2
    | SendOutcome.httpError s =>
      if 400 ≤ s ∧ s < 500 then
        iterateMarkFailed cfg id now (some "http_error") ms.2 cfg.max_retries
      else (mark_as_failed cfg id now (some "http_error") ms.2).2
    | SendOutcome.connectionError =>
      (mark_as_failed cfg id now (some "connection_error") ms.2).2
    | SendOutcome.timeout => (mark_as_failed cfg id now (some "timeout") ms.2).2
    | SendOutcome.otherError =>
      (mark_as_failed cfg id now (some "unexpected_error") ms.2).2
  else st

/-!
Operation-sequence semantics of the queue, for reachability invariants.
Each constructor is one mutating call of the `TranscriptQueue` API (the
read-only calls do not change the table).
-/

/-- One mutating queue operation with its call arguments. -/
inductive QueueOp
  | add (id : Nat) (text : String) (now : ℚ)
  | markSending (id : Nat) (now : ℚ)
  | markSent (id : Nat) (now : ℚ) (resp : Option String)
  | markFailed (id : Nat) (now : ℚ) (err : Option String)
  | reset (id : Nat)
  | cleanup (cutoff : ℚ)

/-- Effect of one queue operation on the table. -/
def applyOp (cfg : QueueConfig) (st : List QueueItem) : QueueOp → List QueueItem
  | QueueOp.add id text now => (add_transcript id text now st).2
  | QueueOp.markSending id now => (mark_as_sending id now st).2
  | QueueOp.markSent id now resp => (mark_as_sent id now resp st).2
  | QueueOp.markFailed id now err => (mark_as_failed cfg id now err st).2
  | QueueOp.reset id => (reset_attempts id st).2
  | QueueOp.cleanup cutoff => (cleanup_old_items cutoff st).2

/-- Table reached from the empty database by a sequence of operations (the
head of the list is the most recent operation). -/
def runOps (cfg : QueueConfig) : List QueueOp → List QueueItem
  | [] => []
  | op :: ops => applyOp cfg (runOps cfg ops) op

/-!
Segmenter (`src/vad.py`).  A PCM chunk is modelled with its
`webrtcvad.Vad.is_speech` classification attached (the classifier is
external and per-frame).  Wall-clock `time.time()` readings (seconds) are
passed in explicitly.  The filesystem side effects are tracked in the
state: `files_on_disk` is the set of WAV files currently existing,
`saved` the successful `_save_audio_file` writes, and `callbacks` the
`on_audio_ready` invocations.
-/

/-- One audio chunk together with its per-frame VAD classification. -/
structure Frame where
  tag : Nat
  speech : Bool
deriving DecidableEq, Repr

/-- Segmenter configuration (`VAD.__init__`):
`silence_chunks = silence_duration_ms / chunk_duration_ms`,
`min_recording_duration_ms`, and whether `on_audio_ready` is wired. -/
structure VadConfig where
  silence_chunks : Nat
  min_recording_duration_ms : ℚ
  has_callback : Bool
deriving Repr

/-- Mutable state of the `VAD` object, plus the tracked side effects. -/
structure VadState where
  is_recording : Bool
  voice_buffer : List Frame
  audio_buffer : List Frame
  audio_counter : Nat
  current_audio_file : Option Nat
  recording_start_time : ℚ
  files_on_disk : List Nat
  saved : List (Nat × List Frame)
  callbacks : List Nat
deriving DecidableEq, Repr

/-- State right after `VAD.__init__`. -/
def initialVadState : VadState :=
  { is_recording := false, voice_buffer := [], audio_buffer := [],
    audio_counter := 0, current_audio_file := none, recording_start_time := 0,
    files_on_disk := [], saved := [], callbacks := [] }

/-- Append to a `deque(maxlen = k)`: the oldest entries are evicted once
the buffer holds `k` chunks. -/
def pushRing (k : Nat) (buf : List Frame) (f : Frame) : List Frame :=
  let b := buf ++ [f]
  b.drop (b.length - k)

/-- Models `VAD._discard_recording`: remove the WAV if it exists on disk,
clear the recording flag, the current file and the capture buffer
(`voice_buffer` is not touched). -/
def discard_recording (s : VadState) : VadState :=
  let files :=
    match s.current_audio_file with
    | some f => s.files_on_disk.erase f
    | none => s.files_on_disk
  { s with
    files_on_disk := files
    is_recording := false
    current_audio_file := none
    audio_buffer := [] }

/-- Models `VAD._start_recording`: flag the recording, stamp the start
time, bump the counter, pick the new file name and clear the capture
buffer. -/
def start_recording (now : ℚ) (s : VadState) : VadState :=
  if s.is_recording then s
  else
    { s with
      is_recording := true
      recording_start_time := now
      audio_counter := s.audio_counter + 1
      current_audio_file := some (s.audio_counter + 1)
      audio_buffer := [] }

/-- Models `VAD._save_audio_file`: early return when there is no current
file or the capture buffer is empty; on a write error (`saveOk = false`)
the `except` branch calls `_discard_recording`. -/
def save_audio_file (saveOk : Bool) (s : VadState) : VadState :=
  match s.current_audio_file, s.audio_buffer with
  | none, _ => s
  | some _, [] => s
  | some f, _ :: _ =>
    if saveOk then
      { s with
        saved := s.saved ++ [(f, s.audio_buffer)]
        files_on_disk := s.files_on_disk ++ [f] }
    else discard_recording s

/-- Models `VAD._stop_recording`: no-op unless recording; discard when the
wall-clock duration (ms) is below `min_recording_duration_ms`; otherwise
save the WAV, invoke `on_audio_ready` when it is wired and a current file
remains (a failed save clears it), and reset `is_recording`,
`current_audio_file` and the capture buffer. -/
def stop_recording (cfg : VadConfig) (now : ℚ) (saveOk : Bool) (s : VadState) :
    VadState :=
  if s.is_recording then
    if (now - s.recording_start_time) * 1000 < cfg.min_recording_duration_ms then
      discard_recording s
    else
      let s1 := save_audio_file saveOk s
      let s2 :=
        if cfg.has_callback then
          match s1.current_audio_file with
          | some f => { s1 with callbacks := s1.callbacks ++ [f] }
          | none => s1
        else s1
      { s2 with
        is_recording := false
        current_audio_file := none
        audio_buffer := [] }
  else s

/-- Models `VAD._process_audio_chunk`: on a speech chunk, start a recording
if idle (flushing the pre-roll `voice_buffer` into the capture buffer),
append the chunk and clear the pre-roll; on a silence chunk while
recording, append it to both buffers and finalize once the pre-roll window
is full; on silence while idle, just push into the pre-roll ring. -/
def process_audio_chunk (cfg : VadConfig) (now : ℚ) (saveOk : Bool)
    (f : Frame) (s : VadState) : VadState :=
  if f.speech then
    let s1 :=
      if s.is_recording then s
      else
        let s0 := start_recording now s
        { s0 with audio_buffer := s0.audio_buffer ++ s.voice_buffer }
    { s1 with
      audio_buffer := s1.audio_buffer ++ [f]
      voice_buffer := [] }
  else
    if s.is_recording then
      let s1 :=
        { s with
          voice_buffer := pushRing cfg.silence_chunks s.voice_buffer f
          audio_buffer := s.audio_buffer ++ [f] }
      if cfg.silence_chunks ≤ s1.voice_buffer.length then
        stop_recording cfg now saveOk s1
      else s1
    else
      { s with voice_buffer := pushRing cfg.silence_chunks s.voice_buffer f }

/-- Run the capture loop over a list of (time, chunk) readings, oldest
first. -/
def processChunks (cfg : VadConfig) (saveOk : Bool) :
    List (ℚ × Frame) → VadState → VadState
  | [], s => s
  | (now, f) :: rest, s => processChunks cfg saveOk rest (process_audio_chunk cfg now saveOk f s)

/-!
Helper lemmas about the `ORDER BY created_at` model.
-/

lemma mem_sortByCreated {st : List QueueItem} {x : QueueItem} :
    x ∈ sortByCreated st ↔ x ∈ st :=
  (List.perm_insertionSort createdLe st).mem_iff

lemma sortByCreated_eq_nil {st : List QueueItem} :
    sortByCreated st = [] ↔ st = [] := by
  constructor
  · intro h
    have hp := (List.perm_insertionSort createdLe st).symm
    rw [sortByCreated] at h
    rw [h] at hp
    exact hp.eq_nil
  · intro h
    rw [h]
    rfl

/-- The head of the sorted list is a member and has minimal `created_at`. -/
lemma head?_sortByCreated_min {st : List QueueItem} {a : QueueItem}
    (h : (sortByCreated st).head? = some a) :
    a ∈ st ∧ ∀ b ∈ st, a.created_at ≤ b.created_at := by
  obtain ⟨t, ht⟩ : ∃ t, sortByCreated st = a :: t := by
    cases hs : sortByCreated st with
    | nil => rw [hs] at h; exact absurd h (by simp)
    | cons x t =>
      rw [hs] at h
      simp only [List.head?_cons, Option.some.injEq] at h
      exact ⟨t, by rw [h]⟩
  have hsorted : List.Sorted createdLe (sortByCreated st) :=
    List.sorted_insertionSort createdLe st
  rw [ht] at hsorted
  refine ⟨mem_sortByCreated.mp (by rw [ht]; exact List.mem_cons_self a t), ?_⟩
  intro b hb
  have hb' : b ∈ sortByCreated st := mem_sortByCreated.mpr hb
  rw [ht] at hb'
  rcases List.mem_cons.mp hb' with hba | hbt
  · rw [hba]
  · exact List.rel_of_sorted_cons hsorted b hbt

/-- Unfolding of `mark_as_failed` in the retry branch. -/
lemma mark_as_failed_eq_retry {cfg : QueueConfig} {st : List QueueItem}
    {id : Nat} {now : ℚ} {err : Option String} {it : QueueItem}
    (hfind : st.find? (fun r => r.id == id) = some it)
    (hlt : it.attempts < cfg.max_retries) :
    mark_as_failed cfg id now err st =
      (true, st.map (fun r =>
        if r.id = id then
          { r with
            status := Status.pending
            last_error := err
            next_retry := some (now + backoffDelay cfg it.attempts) }
        else r)) := by
  unfold mark_as_failed
  rw [hfind]
  dsimp only
  rw [if_neg (by omega)]

/-- Unfolding of `mark_as_failed` in the permanent-failure branch. -/
lemma mark_as_failed_eq_permanent {cfg : QueueConfig} {st : List QueueItem}
    {id : Nat} {now : ℚ} {err : Option String} {it : QueueItem}
    (hfind : st.find? (fun r => r.id == id) = some it)
    (hge : cfg.max_retries ≤ it.attempts) :
    mark_as_failed cfg id now err st =
      (true, st.map (fun r =>
        if r.id = id then
          { r with status := Status.failed_permanent, last_error := err }
        else r)) := by
  unfold mark_as_failed
  rw [hfind]
  dsimp only
  rw [if_pos hge]

/-!
Claim C3.
-/

/-- C3 (amended): `get_next_pending` returns a pending item of minimal
`created_at` among all pending items, regardless of `next_retry` (the
query has no `next_retry` condition), and returns null exactly when no
pending item exists. -/
theorem C3_next_pending_oldest_pending (st : List QueueItem) :
    (∀ it, get_next_pending st = some it →
      it ∈ st ∧ it.status = Status.pending ∧
        ∀ r ∈ st, r.status = Status.pending → it.created_at ≤ r.created_at)
    ∧ (get_next_pending st = none ↔ ∀ r ∈ st, r.status ≠ Status.pending) := by
  constructor
  · intro it h
    unfold get_next_pending at h
    obtain ⟨hmem, hmin⟩ := head?_sortByCreated_min h
    refine ⟨List.mem_of_mem_filter hmem, ?_, ?_⟩
    · have := List.of_mem_filter hmem
      simpa using this
    · intro r hr hrp
      exact hmin r (List.mem_filter_of_mem hr (by simp [hrp]))
  · unfold get_next_pending
    rw [List.head?_eq_none_iff, sortByCreated_eq_nil, List.filter_eq_nil_iff]
    simp

/-- Concrete pending item whose `next_retry` (100) is in the future
relative to probe time 0. -/
def c3item : QueueItem :=
  { id := 7, text := "t", status := Status.pending, attempts := 1,
    last_attempt := some 0, last_error := none, next_retry := some 100,
    created_at := 5, sent_at := none, response := none }

/-- C3 counterexample: at current time 0, `get_next_pending` returns the
pending item even though its `next_retry = 100` lies in the future; the
claim says such an item is never returned. -/
theorem C3_counterexample :
    get_next_pending [c3item] = some c3item
    ∧ c3item.next_retry = some 100 ∧ ¬ ((100 : ℚ) ≤ 0) :=
  ⟨by decide, rfl, by norm_num⟩

/-- C3 witness: the characterization applied to the singleton queue. -/
theorem C3_witness :
    c3item ∈ [c3item] ∧ c3item.status = Status.pending ∧
      ∀ r ∈ [c3item], r.status = Status.pending → c3item.created_at ≤ r.created_at :=
  (C3_next_pending_oldest_pending [c3item]).1 c3item (by decide)

/-!
Claim C2.
-/

/-- C2 (amended): the terminal statuses are not guarded at the queue API:
`mark_as_failed` and `mark_as_sent` update a row matched by id regardless
of its current status, so `mark_as_failed` moves a `sent` item with
`attempts < max_retries` back to `pending` (scheduling a retry) and
`mark_as_sent` moves a `failed_permanent` item to `sent`. -/
theorem C2_terminal_states_not_guarded (cfg : QueueConfig) (st : List QueueItem)
    (id : Nat) (now : ℚ) (err resp : Option String) (it : QueueItem)
    (hfind : st.find? (fun r => r.id == id) = some it) :
    (it.status = Status.sent → it.attempts < cfg.max_retries →
      { it with
        status := Status.pending
        last_error := err
        next_retry := some (now + backoffDelay cfg it.attempts) }
        ∈ (mark_as_failed cfg id now err st).2)
    ∧ (it.status = Status.failed_permanent →
      { it with status := Status.sent, sent_at := some now, response := resp }
        ∈ (mark_as_sent id now resp st).2) := by
  have hmem : it ∈ st := List.mem_of_find?_eq_some hfind
  have hid : it.id = id := by simpa using List.find?_some hfind
  constructor
  · intro _ hlt
    rw [mark_as_failed_eq_retry hfind hlt]
    refine List.mem_map.mpr ⟨it, hmem, ?_⟩
    rw [if_pos hid]
  · intro _
    unfold mark_as_sent
    have hany : st.any (fun r => r.id == id) = true :=
      List.any_eq_true.mpr ⟨it, hmem, by simp [hid]⟩
    rw [if_pos hany]
    have hmm := List.mem_map_of_mem (fun r =>
      if r.id = id then
        { r with status := Status.sent, sent_at := some now, response := resp }
      else r) hmem
    simpa [hid] using hmm

/-- Concrete item in terminal state `sent` with retries left. -/
def c2sent : QueueItem :=
  { id := 1, text := "a", status := Status.sent, attempts := 1,
    last_attempt := some 0, last_error := none, next_retry := none,
    created_at := 0, sent_at := some 0, response := some "ok" }

/-- Concrete item in terminal state `failed_permanent`. -/
def c2perm : QueueItem :=
  { id := 2, text := "b", status := Status.failed_permanent, attempts := 5,
    last_attempt := some 0, last_error := some "boom", next_retry := none,
    created_at := 0, sent_at := none, response := none }

/-- The default retry configuration of `TranscriptQueue.__init__`. -/
def c2cfg : QueueConfig :=
  { max_retries := 5, base_retry_delay := 1, max_retry_delay := 300 }

/-- C2 counterexample: `mark_as_failed` on a `sent` item makes it
`pending` again, and `mark_as_sent` on a `failed_permanent` item makes it
`sent`; the claim says both calls leave a terminal status unchanged. -/
theorem C2_counterexample :
    (mark_as_failed c2cfg 1 0 none [c2sent]).2.map (fun r => r.status)
        = [Status.pending]
    ∧ (mark_as_sent 2 0 none [c2perm]).2.map (fun r => r.status)
        = [Status.sent] :=
  ⟨by decide, by decide⟩

/-- C2 witness: the unguarded-update theorem applied to the concrete
`sent` item. -/
theorem C2_witness :
    { c2sent with
      status := Status.pending
      last_error := some "e"
      next_retry := some ((3 : ℚ) + backoffDelay c2cfg c2sent.attempts) }
      ∈ (mark_as_failed c2cfg 1 3 (some "e") [c2sent]).2 :=
  (C2_terminal_states_not_guarded c2cfg [c2sent] 1 3 (some "e") none c2sent
    (by decide)).1 rfl (by decide)

/-!
Claim C5.
-/

/-- C5 (amended): for an item with `attempts = n ≥ 1`, `mark_as_failed`
moves it to `pending` with
`next_retry = now + min(base_retry_delay * 2 ^ (n - 1), max_retry_delay)`
when `n < max_retries`, and to `failed_permanent` with `next_retry` left
unchanged when `n ≥ max_retries`; the delay is exactly
`base_retry_delay` at `n = 1` (when `base_retry_delay ≤ max_retry_delay`)
and exactly `max_retry_delay` once the exponential reaches the cap, with
no overflow. -/
theorem C5_backoff_and_transitions (cfg : QueueConfig) (st : List QueueItem)
    (id : Nat) (now : ℚ) (err : Option String) (it : QueueItem)
    (hfind : st.find? (fun r => r.id == id) = some it)
    (hn : 1 ≤ it.attempts) :
    (it.attempts < cfg.max_retries →
      { it with
        status := Status.pending
        last_error := err
        next_retry := some (now + min (cfg.base_retry_delay *
          (2 : ℚ) ^ ((it.attempts : ℤ) - 1)) cfg.max_retry_delay) }
        ∈ (mark_as_failed cfg id now err st).2)
    ∧ (cfg.max_retries ≤ it.attempts →
      { it with status := Status.failed_permanent, last_error := err }
        ∈ (mark_as_failed cfg id now err st).2)
    ∧ (it.attempts = 1 → cfg.base_retry_delay ≤ cfg.max_retry_delay →
        backoffDelay cfg it.attempts = cfg.base_retry_delay)
    ∧ (cfg.max_retry_delay ≤
        cfg.base_retry_delay * (2 : ℚ) ^ ((it.attempts : ℤ) - 1) →
        backoffDelay cfg it.attempts = cfg.max_retry_delay) := by
  have hmem : it ∈ st := List.mem_of_find?_eq_some hfind
  have hid : it.id = id := by simpa using List.find?_some hfind
  refine ⟨?_, ?_, ?_, ?_⟩
  · intro hlt
    rw [mark_as_failed_eq_retry hfind hlt]
    refine List.mem_map.mpr ⟨it, hmem, ?_⟩
    rw [if_pos hid]
    unfold backoffDelay
    rfl
  · intro hge
    rw [mark_as_failed_eq_permanent hfind hge]
    refine List.mem_map.mpr ⟨it, hmem, ?_⟩
    rw [if_pos hid]
  · intro h1 hb
    unfold backoffDelay
    rw [h1]
    norm_num
    exact hb
  · intro hge
    unfold backoffDelay
    exact min_eq_right hge

/-- Concrete item at its final allowed attempt under `max_retries = 1`. -/
def c5item : QueueItem :=
  { id := 3, text := "t", status := Status.sending, attempts := 1,
    last_attempt := some 0, last_error := none, next_retry := none,
    created_at := 0, sent_at := none, response := none }

/-- Retry configuration with `max_retries = 1`. -/
def c5cfg : QueueConfig :=
  { max_retries := 1, base_retry_delay := 1, max_retry_delay := 300 }

/-- C5 counterexample: with `attempts = 1 = max_retries`, `mark_as_failed`
moves the item to `failed_permanent` and leaves `next_retry = null`
instead of setting `next_retry = now + delay` as the claim states for
every `n ≥ 1`. -/
theorem C5_counterexample :
    (mark_as_failed c5cfg 3 10 (some "e") [c5item]).2.map
        (fun r => (r.status, r.next_retry)) = [(Status.failed_permanent, none)]
    ∧ (none : Option ℚ) ≠ some (10 + backoffDelay c5cfg 1) :=
  ⟨by decide, by simp⟩

/-- Retry configuration with the default `max_retries = 5`. -/
def c5wcfg : QueueConfig :=
  { max_retries := 5, base_retry_delay := 1, max_retry_delay := 300 }

/-- C5 witness: the pending branch and the `n = 1` delay evaluated on the
concrete item. -/
theorem C5_witness :
    ({ c5item with
       status := Status.pending
       last_error := some "e"
       next_retry := some ((10 : ℚ) + min (c5wcfg.base_retry_delay *
         (2 : ℚ) ^ ((c5item.attempts : ℤ) - 1)) c5wcfg.max_retry_delay) }
      ∈ (mark_as_failed c5wcfg 3 10 (some "e") [c5item]).2)
    ∧ backoffDelay c5wcfg c5item.attempts = c5wcfg.base_retry_delay :=
  ⟨(C5_backoff_and_transitions c5wcfg [c5item] 3 10 (some "e") c5item
      (by decide) (by decide)).1 (by decide),
   (C5_backoff_and_transitions c5wcfg [c5item] 3 10 (some "e") c5item
      (by decide) (by decide)).2.2.1 rfl (by norm_num [c5wcfg])⟩

/-!
Claim C6.
-/

/-- C6 (amended): `mark_as_sending` sets `status = sending`, increments
`attempts` and stamps `last_attempt` for any existing item regardless of
its current status (the UPDATE has no `status = 'pending'` guard); it is
rejected, leaving the table unchanged, only when no item with the id
exists. -/
theorem C6_mark_as_sending_any_status (id : Nat) (now : ℚ) (st : List QueueItem) :
    ((∀ r ∈ st, r.id ≠ id) → mark_as_sending id now st = (false, st))
    ∧ (∀ it ∈ st, it.id = id →
        (mark_as_sending id now st).1 = true ∧
        { it with
          status := Status.sending
          attempts := it.attempts + 1
          last_attempt := some now } ∈ (mark_as_sending id now st).2) := by
  constructor
  · intro hnone
    unfold mark_as_sending
    rw [if_neg]
    intro hany
    obtain ⟨r, hr, hrid⟩ := List.any_eq_true.mp hany
    exact hnone r hr (by simpa using hrid)
  · intro it hmem hid
    have hany : st.any (fun r => r.id == id) = true :=
      List.any_eq_true.mpr ⟨it, hmem, by simp [hid]⟩
    unfold mark_as_sending
    rw [if_pos hany]
    refine ⟨rfl, ?_⟩
    have hmm := List.mem_map_of_mem (fun r =>
      if r.id = id then
        { r with
          status := Status.sending
          attempts := r.attempts + 1
          last_attempt := some now }
      else r) hmem
    simpa [hid] using hmm

/-- Concrete item in status `sent` (not `pending`). -/
def c6item : QueueItem :=
  { id := 4, text := "c", status := Status.sent, attempts := 3,
    last_attempt := some 0, last_error := none, next_retry := none,
    created_at := 0, sent_at := some 0, response := none }

/-- C6 counterexample: `mark_as_sending` on an item in status `sent`
succeeds and mutates it (to `sending`, `attempts` 3 → 4); the claim says
the call is rejected and the item left unchanged. -/
theorem C6_counterexample :
    (mark_as_sending 4 1 [c6item]).1 = true
    ∧ (mark_as_sending 4 1 [c6item]).2.map (fun r => (r.status, r.attempts))
        = [(Status.sending, 4)]
    ∧ c6item.status ≠ Status.pending :=
  ⟨by decide, by decide, by decide⟩

/-- C6 witness: the unguarded-update theorem applied to the concrete
`sent` item. -/
theorem C6_witness :
    (mark_as_sending 4 1 [c6item]).1 = true ∧
    { c6item with
      status := Status.sending
      attempts := c6item.attempts + 1
      last_attempt := some (1 : ℚ) } ∈ (mark_as_sending 4 1 [c6item]).2 :=
  (C6_mark_as_sending_any_status 4 1 [c6item]).2 c6item (by decide) rfl

/-!
Claim C4: id uniqueness machinery and the attempts bound.
-/

/-- The `id` PRIMARY KEY constraint: all id values in the table are
distinct. -/
def UniqueIds (st : List QueueItem) : Prop := (st.map QueueItem.id).Nodup

lemma uniqueIds_map_of_id_eq {st : List QueueItem} {f : QueueItem → QueueItem}
    (hf : ∀ r, (f r).id = r.id) (h : UniqueIds st) : UniqueIds (st.map f) := by
  unfold UniqueIds at h ⊢
  rw [List.map_map]
  have hfl : QueueItem.id ∘ f = QueueItem.id := funext hf
  rw [hfl]
  exact h

lemma uniqueIds_filter {st : List QueueItem} {p : QueueItem → Bool}
    (h : UniqueIds st) : UniqueIds (st.filter p) :=
  h.sublist (List.Sublist.map QueueItem.id (List.filter_sublist st))

/-- Two rows of a duplicate-free table with the same id are equal. -/
lemma uniqueIds_inj : ∀ {st : List QueueItem}, UniqueIds st →
    ∀ {a b : QueueItem}, a ∈ st → b ∈ st → a.id = b.id → a = b := by
  intro st
  induction st with
  | nil => intro _ a b ha _ _; exact absurd ha (List.not_mem_nil a)
  | cons c t ih =>
    intro h a b ha hb hab
    have hparts : c.id ∉ t.map QueueItem.id ∧ UniqueIds t := by
      unfold UniqueIds at h
      rw [List.map_cons, List.nodup_cons] at h
      exact h
    rcases List.mem_cons.mp ha with rfl | ha' <;>
      rcases List.mem_cons.mp hb with rfl | hb'
    · rfl
    · exact absurd (hab ▸ List.mem_map_of_mem QueueItem.id hb') hparts.1
    · exact absurd (by rw [← hab]; exact List.mem_map_of_mem QueueItem.id ha')
        hparts.1
    · exact ih hparts.2 ha' hb' hab

lemma uniqueIds_add {st : List QueueItem} {id : Nat} {text : String} {now : ℚ}
    (h : UniqueIds st) : UniqueIds (add_transcript id text now st).2 := by
  unfold add_transcript
  by_cases hc : st.any (fun r => r.id == id)
  · rw [if_pos hc]
    exact h
  · rw [if_neg hc]
    unfold UniqueIds at h ⊢
    dsimp only
    rw [List.map_append]
    rw [List.nodup_append]
    refine ⟨h, List.nodup_singleton _, ?_⟩
    intro x hx hx1
    rw [List.mem_map] at hx
    obtain ⟨a, ha, rfl⟩ := hx
    simp only [List.map_cons, List.map_nil, List.mem_singleton] at hx1
    have : st.any (fun r => r.id == id) = true :=
      List.any_eq_true.mpr ⟨a, ha, by simp [hx1]⟩
    exact hc this

lemma uniqueIds_applyOp (cfg : QueueConfig) (st : List QueueItem) (op : QueueOp)
    (h : UniqueIds st) : UniqueIds (applyOp cfg st op) := by
  cases op with
  | add id text now => exact uniqueIds_add h
  | markSending id now =>
    show UniqueIds (mark_as_sending id now st).2
    unfold mark_as_sending
    by_cases hc : st.any (fun r => r.id == id)
    · rw [if_pos hc]
      exact uniqueIds_map_of_id_eq (fun r => by split <;> rfl) h
    · rw [if_neg hc]
      exact h
  | markSent id now resp =>
    show UniqueIds (mark_as_sent id now resp st).2
    unfold mark_as_sent
    by_cases hc : st.any (fun r => r.id == id)
    · rw [if_pos hc]
      exact uniqueIds_map_of_id_eq (fun r => by split <;> rfl) h
    · rw [if_neg hc]
      exact h
  | markFailed id now err =>
    show UniqueIds (mark_as_failed cfg id now err st).2
    unfold mark_as_failed
    cases hfind : st.find? (fun r => r.id == id) with
    | none => exact h
    | some row =>
      dsimp only
      by_cases hge : cfg.max_retries ≤ row.attempts
      · rw [if_pos hge]
        exact uniqueIds_map_of_id_eq (fun r => by split <;> rfl) h
      · rw [if_neg hge]
        exact uniqueIds_map_of_id_eq (fun r => by split <;> rfl) h
  | reset id =>
    show UniqueIds (reset_attempts id st).2
    unfold reset_attempts
    by_cases hc : st.any (fun r => r.id == id)
    · rw [if_pos hc]
      exact uniqueIds_map_of_id_eq (fun r => by split <;> rfl) h
    · rw [if_neg hc]
      exact h
  | cleanup cutoff =>
    show UniqueIds (cleanup_old_items cutoff st).2
    unfold cleanup_old_items
    exact uniqueIds_filter h

lemma runOps_uniqueIds (cfg : QueueConfig) (ops : List QueueOp) :
    UniqueIds (runOps cfg ops) := by
  induction ops with
  | nil => exact List.nodup_nil
  | cons op ops ih => exact uniqueIds_applyOp cfg (runOps cfg ops) op ih

/-- The pending-attempts bound is preserved by every queue operation. -/
lemma applyOp_pending_le (cfg : QueueConfig) (st : List QueueItem) (op : QueueOp)
    (hu : UniqueIds st)
    (ih : ∀ r ∈ st, r.status = Status.pending → r.attempts ≤ cfg.max_retries) :
    ∀ r ∈ applyOp cfg st op, r.status = Status.pending →
      r.attempts ≤ cfg.max_retries := by
  cases op with
  | add id text now =>
    intro r hr hp
    replace hr : r ∈ (add_transcript id text now st).2 := hr
    unfold add_transcript at hr
    by_cases hc : st.any (fun x => x.id == id)
    · rw [if_pos hc] at hr
      exact ih r hr hp
    · rw [if_neg hc] at hr
      dsimp only at hr
      rcases List.mem_append.mp hr with hr' | hr'
      · exact ih r hr' hp
      · have hr2 := List.mem_singleton.mp hr'
        rw [hr2]
        exact Nat.zero_le _
  | markSending id now =>
    intro r hr hp
    replace hr : r ∈ (mark_as_sending id now st).2 := hr
    unfold mark_as_sending at hr
    by_cases hc : st.any (fun x => x.id == id)
    · rw [if_pos hc] at hr
      dsimp only at hr
      obtain ⟨a, ha, rfl⟩ := List.mem_map.mp hr
      by_cases hra : a.id = id
      · rw [if_pos hra] at hp
        exact absurd hp (by simp)
      · rw [if_neg hra] at hp ⊢
        exact ih a ha hp
    · rw [if_neg hc] at hr
      exact ih r hr hp
  | markSent id now resp =>
    intro r hr hp
    replace hr : r ∈ (mark_as_sent id now resp st).2 := hr
    unfold mark_as_sent at hr
    by_cases hc : st.any (fun x => x.id == id)
    · rw [if_pos hc] at hr
      dsimp only at hr
      obtain ⟨a, ha, rfl⟩ := List.mem_map.mp hr
      by_cases hra : a.id = id
      · rw [if_pos hra] at hp
        exact absurd hp (by simp)
      · rw [if_neg hra] at hp ⊢
        exact ih a ha hp
    · rw [if_neg hc] at hr
      exact ih r hr hp
  | markFailed id now err =>
    intro r hr hp
    replace hr : r ∈ (mark_as_failed cfg id now err st).2 := hr
    unfold mark_as_failed at hr
    cases hfind : st.find? (fun x => x.id == id) with
    | none =>
      rw [hfind] at hr
      exact ih r hr hp
    | some row =>
      rw [hfind] at hr
      dsimp only at hr
      have hrowmem : row ∈ st := List.mem_of_find?_eq_some hfind
      have hrowid : row.id = id := by simpa using List.find?_some hfind
      by_cases hge : cfg.max_retries ≤ row.attempts
      · rw [if_pos hge] at hr
        obtain ⟨a, ha, rfl⟩ := List.mem_map.mp hr
        by_cases hra : a.id = id
        · rw [if_pos hra] at hp
          exact absurd hp (by simp)
        · rw [if_neg hra] at hp ⊢
          exact ih a ha hp
      · rw [if_neg hge] at hr
        obtain ⟨a, ha, rfl⟩ := List.mem_map.mp hr
        by_cases hra : a.id = id
        · rw [if_pos hra]
          have haeq : a = row := uniqueIds_inj hu ha hrowmem (by rw [hra, hrowid])
          rw [haeq]
          show row.attempts ≤ cfg.max_retries
          omega
        · rw [if_neg hra] at hp ⊢
          exact ih a ha hp
  | reset id =>
    intro r hr hp
    replace hr : r ∈ (reset_attempts id st).2 := hr
    unfold reset_attempts at hr
    by_cases hc : st.any (fun x => x.id == id)
    · rw [if_pos hc] at hr
      dsimp only at hr
      obtain ⟨a, ha, rfl⟩ := List.mem_map.mp hr
      by_cases hra : a.id = id
      · rw [if_pos hra]
        exact Nat.zero_le _
      · rw [if_neg hra] at hp ⊢
        exact ih a ha hp
    · rw [if_neg hc] at hr
      exact ih r hr hp
  | cleanup cutoff =>
    intro r hr hp
    replace hr : r ∈ (cleanup_old_items cutoff st).2 := hr
    exact ih r (List.mem_of_mem_filter hr) hp

lemma runOps_pending_le (cfg : QueueConfig) (ops : List QueueOp) :
    ∀ r ∈ runOps cfg ops, r.status = Status.pending →
      r.attempts ≤ cfg.max_retries := by
  induction ops with
  | nil => intro r hr; exact absurd hr (List.not_mem_nil r)
  | cons op ops ih =>
    exact applyOp_pending_le cfg (runOps cfg ops) op (runOps_uniqueIds cfg ops) ih

/-- C4 (amended): in every table reachable from the empty database by any
sequence of queue operations, every item in status `pending` satisfies
`attempts ≤ max_retries`; the bound does not extend to `sending`/`sent`
items, since `mark_as_sending` has no status guard and re-marking (e.g.
via `force_send` on an in-flight item) pushes `attempts` past the cap. -/
theorem C4_pending_attempts_le (cfg : QueueConfig) (ops : List QueueOp)
    (r : QueueItem) (hr : r ∈ runOps cfg ops) (hp : r.status = Status.pending) :
    r.attempts ≤ cfg.max_retries :=
  runOps_pending_le cfg ops r hr hp

/-- Retry configuration with `max_retries = 1` for the counterexample. -/
def c4cfg : QueueConfig :=
  { max_retries := 1, base_retry_delay := 1, max_retry_delay := 300 }

/-- C4 counterexample: add an item and mark it `sending` twice (exactly
what a concurrent `force_send` on an in-flight item does); the reachable
item has `attempts = 2 > max_retries = 1` while its status (`sending`) is
not `failed_permanent`, contradicting the claim. -/
theorem C4_counterexample :
    (runOps c4cfg [QueueOp.markSending 0 2, QueueOp.markSending 0 1,
        QueueOp.add 0 "x" 0]).map (fun r => (r.status, r.attempts))
      = [(Status.sending, 2)]
    ∧ ¬ (2 ≤ c4cfg.max_retries)
    ∧ Status.sending ≠ Status.failed_permanent :=
  ⟨by decide, by decide, by decide⟩

/-- The item produced by `add_transcript 0 "x" 0` on the empty table. -/
def c4added : QueueItem :=
  { id := 0, text := "x", status := Status.pending, attempts := 0,
    last_attempt := none, last_error := none, next_retry := none,
    created_at := 0, sent_at := none, response := none }

/-- C4 witness: the bound evaluated on the singleton reachable table. -/
theorem C4_witness : c4added.attempts ≤ c4cfg.max_retries :=
  C4_pending_attempts_le c4cfg [QueueOp.add 0 "x" 0] c4added (by decide) rfl

/-!
Claim C1.
-/

/-- Default retry configuration for the 4xx dispatch scenario. -/
def c1cfg : QueueConfig :=
  { max_retries := 5, base_retry_delay := 1, max_retry_delay := 300 }

/-- Fresh queue with one just-added transcript. -/
def c1st : List QueueItem := (add_transcript 0 "hello" 0 []).2

/-- C1 (code bug): dispatching the fresh item against an HTTP 404 response
takes the 4xx branch, which calls `mark_as_failed` in a loop
`max_retries` times intending a permanent failure, but `mark_as_failed`
never increments `attempts`, so the loop is idempotent: the item ends in
`pending` with `attempts = 1` (not `failed_permanent` with
`attempts = max_retries`) and is still eligible for retry afterwards. -/
theorem C1_fourxx_not_permanent :
    (send_transcript c1cfg 0 1 (SendOutcome.httpError 404) c1st).map
        (fun r => (r.status, r.attempts)) = [(Status.pending, 1)]
    ∧ (get_retryable_items c1cfg 2
        (send_transcript c1cfg 0 1 (SendOutcome.httpError 404) c1st)).length = 1
    ∧ (1 : Nat) ≠ c1cfg.max_retries
    ∧ Status.pending ≠ Status.failed_permanent :=
  ⟨by decide,
   by
    norm_num [get_retryable_items, send_transcript, c1st, c1cfg, add_transcript,
      mark_as_sending, mark_as_failed, iterateMarkFailed, backoffDelay,
      sortByCreated, List.insertionSort, List.orderedInsert, List.filter],
   by decide, by decide⟩

/-!
Claim C7.
-/

/-- Item persisted in status `sending` at process start. -/
def c7item : QueueItem :=
  { id := 9, text := "w", status := Status.sending, attempts := 1,
    last_attempt := some 0, last_error := none, next_retry := none,
    created_at := 0, sent_at := none, response := none }

/-- Default retry configuration for the startup scenario. -/
def c7cfg : QueueConfig :=
  { max_retries := 5, base_retry_delay := 1, max_retry_delay := 300 }

/-- C7 (code bug): `_init_database` only creates the table and indexes, so
an item persisted in status `sending` is still `sending` right after
startup, and it is invisible to both dispatch queries
(`get_next_pending`, `get_retryable_items`), so it is never dispatched
again; the claim (and the spec's startup sweep) says it is reset to
`pending`. -/
theorem C7_no_startup_sweep :
    init_database [c7item] = [c7item]
    ∧ (init_database [c7item]).map (fun r => r.status) = [Status.sending]
    ∧ get_next_pending (init_database [c7item]) = none
    ∧ get_retryable_items c7cfg 1000000 (init_database [c7item]) = [] :=
  ⟨rfl, by decide, by decide, by decide⟩

/-!
Claim C10.
-/

/-- C10: when the store raises during a read, `get_next_pending` returns
null, `get_retryable_items` returns the empty list and `get_stats` returns
all-zero counts; each result coincides with the same read on an empty
queue, so a failing store is indistinguishable from an empty one at these
interfaces. -/
theorem C10_failing_store_reads_default (e : String) (cfg : QueueConfig) (now : ℚ) :
    get_next_pending_db (Except.error e) = none
    ∧ get_retryable_items_db cfg now (Except.error e) = []
    ∧ get_stats_db (Except.error e) =
        { pending := 0, sending := 0, sent := 0, failed_permanent := 0, total := 0 }
    ∧ get_next_pending_db (Except.error e) = get_next_pending_db (Except.ok [])
    ∧ get_retryable_items_db cfg now (Except.error e)
        = get_retryable_items_db cfg now (Except.ok [])
    ∧ get_stats_db (Except.error e) = get_stats_db (Except.ok []) :=
  ⟨rfl, rfl, rfl, rfl, rfl, rfl⟩

lemma discard_recording_voice (s : VadState) :
    (discard_recording s).voice_buffer = s.voice_buffer := rfl

lemma save_audio_file_voice (saveOk : Bool) (s : VadState) :
    (save_audio_file saveOk s).voice_buffer = s.voice_buffer := by
  unfold save_audio_file
  split
  · rfl
  · rfl
  · split
    · rfl
    · rfl

/-- C8 (amended): finalizing a recording empties the capture buffer and
clears `is_recording`, but it does not touch the pre-roll ring buffer
`voice_buffer`, which still holds the trailing-silence chunks. -/
theorem C8_finalize_keeps_preroll (cfg : VadConfig) (now : ℚ) (saveOk : Bool)
    (s : VadState) (h : s.is_recording = true) :
    (stop_recording cfg now saveOk s).audio_buffer = []
    ∧ (stop_recording cfg now saveOk s).is_recording = false
    ∧ (stop_recording cfg now saveOk s).voice_buffer = s.voice_buffer := by
  unfold stop_recording
  rw [h, if_pos rfl]
  split
  · exact ⟨rfl, rfl, rfl⟩
  · refine ⟨rfl, rfl, ?_⟩
    show (if cfg.has_callback then _ else _ : VadState).voice_buffer = s.voice_buffer
    split
    · split
      · exact save_audio_file_voice saveOk s
      · exact save_audio_file_voice saveOk s
    · exact save_audio_file_voice saveOk s

/-- Unfolding of `stop_recording` on the emit path: duration at least the
minimum, a current file, a nonempty capture buffer and a successful
write. -/
lemma stop_recording_emit (cfg : VadConfig) (now : ℚ) (s : VadState) (f : Nat)
    (hrec : s.is_recording = true) (hfile : s.current_audio_file = some f)
    (hbuf : s.audio_buffer ≠ [])
    (hge : ¬ ((now - s.recording_start_time) * 1000 <
      cfg.min_recording_duration_ms)) :
    stop_recording cfg now true s =
      { is_recording := false
        voice_buffer := s.voice_buffer
        audio_buffer := []
        audio_counter := s.audio_counter
        current_audio_file := none
        recording_start_time := s.recording_start_time
        files_on_disk := s.files_on_disk ++ [f]
        saved := s.saved ++ [(f, s.audio_buffer)]
        callbacks := if cfg.has_callback then s.callbacks ++ [f]
          else s.callbacks } := by
  obtain ⟨x, xs, hb⟩ : ∃ x xs, s.audio_buffer = x :: xs := by
    cases hb : s.audio_buffer with
    | nil => exact absurd hb hbuf
    | cons x xs => exact ⟨x, xs, rfl⟩
  have hs1 : save_audio_file true s =
      { s with
        saved := s.saved ++ [(f, s.audio_buffer)]
        files_on_disk := s.files_on_disk ++ [f] } := by
    unfold save_audio_file
    rw [hfile, hb]
    dsimp only
    rw [← hb, if_pos rfl]
  unfold stop_recording
  rw [hrec, if_pos rfl, if_neg hge]
  rw [hs1]
  by_cases hc : cfg.has_callback
  · rw [hc]
    simp only [if_pos rfl, hfile]
    rfl
  · simp only [hc]
    rfl

/-- C9: a finalized segment of duration exactly one millisecond below
`min_recording_duration_ms` is discarded (no write, no callback, no file
on disk), while one of duration exactly `min_recording_duration_ms` is
emitted: the WAV is written and the sink callback fires exactly once. -/
theorem C9_min_duration_boundary (cfg : VadConfig) (s : VadState)
    (t1 t2 : ℚ) (f : Nat)
    (hrec : s.is_recording = true) (hfile : s.current_audio_file = some f)
    (hbuf : s.audio_buffer ≠ []) (hcb : cfg.has_callback = true)
    (hnew : f ∉ s.callbacks) (hdisk : f ∉ s.files_on_disk)
    (h1 : (t1 - s.recording_start_time) * 1000 = cfg.min_recording_duration_ms - 1)
    (h2 : (t2 - s.recording_start_time) * 1000 = cfg.min_recording_duration_ms) :
    ((stop_recording cfg t1 true s).saved = s.saved
      ∧ (stop_recording cfg t1 true s).callbacks = s.callbacks
      ∧ f ∉ (stop_recording cfg t1 true s).files_on_disk)
    ∧ ((stop_recording cfg t2 true s).saved = s.saved ++ [(f, s.audio_buffer)]
      ∧ (stop_recording cfg t2 true s).callbacks = s.callbacks ++ [f]
      ∧ (stop_recording cfg t2 true s).callbacks.count f = 1
      ∧ f ∈ (stop_recording cfg t2 true s).files_on_disk) := by
  constructor
  · have hlt : (t1 - s.recording_start_time) * 1000 <
        cfg.min_recording_duration_ms := by
      rw [h1]
      linarith
    unfold stop_recording
    rw [hrec, if_pos rfl, if_pos hlt]
    refine ⟨rfl, rfl, ?_⟩
    unfold discard_recording
    rw [hfile]
    dsimp only
    intro hmm
    exact hdisk (List.mem_of_mem_erase hmm)
  · have hge : ¬ ((t2 - s.recording_start_time) * 1000 <
        cfg.min_recording_duration_ms) := by
      rw [h2]
      exact lt_irrefl _
    rw [stop_recording_emit cfg t2 s f hrec hfile hbuf hge]
    refine ⟨rfl, ?_, ?_, ?_⟩
    · show (if cfg.has_callback = true then s.callbacks ++ [f]
        else s.callbacks) = s.callbacks ++ [f]
      rw [if_pos hcb]
    · show (if cfg.has_callback = true then s.callbacks ++ [f]
        else s.callbacks).count f = 1
      rw [if_pos hcb, List.count_append, List.count_eq_zero.mpr hnew]
      simp
    · exact List.mem_append_right _ (List.mem_singleton_self f)

/-- Segmenter with a one-chunk silence window so the second chunk
finalizes, with the minimum duration set to zero so the segment is
emitted. -/
def c8cfg : VadConfig :=
  { silence_chunks := 1, min_recording_duration_ms := 0, has_callback := true }

/-- A speech chunk. -/
def c8f1 : Frame := { tag := 1, speech := true }

/-- A silence chunk. -/
def c8f2 : Frame := { tag := 2, speech := false }

/-- C8 counterexample: after the silence chunk finalizes the utterance,
the capture buffer is empty but the pre-roll `voice_buffer` still holds
the trailing silence chunk, which already belongs to the just-saved
utterance; the claim says both buffers are empty. -/
theorem C8_counterexample :
    (processChunks c8cfg true [(0, c8f1), (1, c8f2)] initialVadState).voice_buffer
        = [c8f2]
    ∧ (processChunks c8cfg true [(0, c8f1), (1, c8f2)] initialVadState).audio_buffer
        = []
    ∧ (processChunks c8cfg true [(0, c8f1), (1, c8f2)] initialVadState).saved
        = [(1, [c8f1, c8f2])]
    ∧ [c8f2] ≠ ([] : List Frame) := by
  refine ⟨?_, ?_, ?_, by decide⟩ <;>
    norm_num [processChunks, process_audio_chunk, stop_recording, start_recording,
      save_audio_file, discard_recording, pushRing, initialVadState, c8cfg, c8f1, c8f2]

/-- Recording state at the moment the silence window fills. -/
def c8state : VadState :=
  { is_recording := true, voice_buffer := [c8f2], audio_buffer := [c8f1, c8f2],
    audio_counter := 1, current_audio_file := some 1, recording_start_time := 0,
    files_on_disk := [], saved := [], callbacks := [] }

/-- C8 witness: the finalize theorem evaluated at the concrete recording
state. -/
theorem C8_witness :
    (stop_recording c8cfg 1 true c8state).audio_buffer = []
    ∧ (stop_recording c8cfg 1 true c8state).is_recording = false
    ∧ (stop_recording c8cfg 1 true c8state).voice_buffer = c8state.voice_buffer :=
  C8_finalize_keeps_preroll c8cfg 1 true c8state rfl

/-- Default segmenter configuration: 1000 ms silence at 30 ms chunks and
a 500 ms minimum duration. -/
def c9cfg : VadConfig :=
  { silence_chunks := 33, min_recording_duration_ms := 500, has_callback := true }

/-- A captured speech chunk. -/
def c9f : Frame := { tag := 10, speech := true }

/-- Recording state about to be finalized. -/
def c9state : VadState :=
  { is_recording := true, voice_buffer := [], audio_buffer := [c9f],
    audio_counter := 1, current_audio_file := some 1, recording_start_time := 0,
    files_on_disk := [], saved := [], callbacks := [] }

/-- C9 witness: the boundary theorem evaluated at durations of exactly
499 ms and 500 ms. -/
theorem C9_witness :
    ((stop_recording c9cfg (499 / 1000) true c9state).saved = c9state.saved
      ∧ (stop_recording c9cfg (499 / 1000) true c9state).callbacks
          = c9state.callbacks
      ∧ 1 ∉ (stop_recording c9cfg (499 / 1000) true c9state).files_on_disk)
    ∧ ((stop_recording c9cfg (1 / 2) true c9state).saved
          = c9state.saved ++ [(1, c9state.audio_buffer)]
      ∧ (stop_recording c9cfg (1 / 2) true c9state).callbacks
          = c9state.callbacks ++ [1]
      ∧ (stop_recording c9cfg (1 / 2) true c9state).callbacks.count 1 = 1
      ∧ 1 ∈ (stop_recording c9cfg (1 / 2) true c9state).files_on_disk) :=
  C9_min_duration_boundary c9cfg c9state (499 / 1000) (1 / 2) 1 rfl rfl
    (by decide) rfl (by decide) (by decide)
    (by norm_num [c9state, c9cfg]) (by norm_num [c9state, c9cfg])

end Wt
